import Mathlib

/-!
Verification development for the content acquisition and semantic retrieval
pipeline of `via_web_app.py` (repository `fredster9/site-interface`).

The Python source is shallowly embedded below.  Conventions used throughout:

* Python dictionaries describing articles become the `Article` structure.
  A field that the Python code accesses with `article.get(k, '')` is modelled
  as a plain `String` (the empty string standing for an absent key); the
  optional `states` and `embedding` keys, whose *presence* the code tests
  with `'k' in article`, are modelled as `Option` fields (`none` = key
  absent).
* Python floats are modelled as exact rationals (`ℚ`) where the code only
  moves them around, and as real numbers (`ℝ`) where the code does analytic
  arithmetic (`np.linalg.norm`, `math.sin`, ...).
* External capabilities are parameters: the OpenAI embedding endpoint is a
  function `embed : String → Option (List ℚ)` (`none` models a raised
  exception / failure), the chat-completion endpoint is
  `complete : String → Option String`, and `random.shuffle` is a caller
  supplied permutation `shuffle : List Article → List Article`.
* Python's `str in str` containment test is `strContains` below; `str.strip`
  is `String.trim`, `s[:n]` is `String.take`, `str.lower` is
  `String.toLower`.
-/

/-- Substring search on character lists: `pat` occurs contiguously in the
haystack.  Models Python's `pat in s` for strings. -/
def listContainsSub : List Char → List Char → Bool
  | [], pat => pat.isEmpty
  | c :: rest, pat => pat.isPrefixOf (c :: rest) || listContainsSub rest pat

/-- Python's substring containment `pat in s`. -/
def strContains (s pat : String) : Bool :=
  listContainsSub s.data pat.data

/-- `s.startswith(pat)`.  (Core's `String.startsWith` is position-based and
does not reduce definitionally, so the model works on character lists.) -/
def strStartsWith (s pat : String) : Bool :=
  pat.data.isPrefixOf s.data

/-- Python's slice `s[:n]` (by characters, as in Python). -/
def strTake (s : String) (n : ℕ) : String :=
  ⟨s.data.take n⟩

/-- `s.lower()`. -/
def strLower (s : String) : String :=
  ⟨s.data.map Char.toLower⟩

/-- `s.strip()` — whitespace removed from both ends. -/
def strTrim (s : String) : String :=
  ⟨((s.data.dropWhile Char.isWhitespace).reverse.dropWhile Char.isWhitespace).reverse⟩

/-- The character-list join underlying `sep.join(parts)`. -/
def joinSep (sep : List Char) : List (List Char) → List Char
  | [] => []
  | [x] => x
  | x :: y :: xs => x ++ sep ++ joinSep sep (y :: xs)

/-- `sep.join(parts)`. -/
def strIntercalate (sep : String) (parts : List String) : String :=
  ⟨joinSep sep.data (parts.map fun p => p.data)⟩

/-- `full_url.split('/')[-1]` — the suffix after the last slash (the whole
string when it has no slash). -/
def lastSegment (u : String) : String :=
  ⟨(u.data.reverse.takeWhile fun c => c ≠ '/').reverse⟩

/-- The characters after the first `://`, if any. -/
def afterScheme : List Char → Option (List Char)
  | ':' :: '/' :: '/' :: rest => some rest
  | _ :: rest => afterScheme rest
  | [] => none

/-- The authority (host) component of an absolute URL
`scheme://authority/path...`.  Used only to *state* claims that speak about
the authority of a URL; the Python code itself never parses authorities. -/
def urlAuthority (u : String) : String :=
  ⟨((afterScheme u.data).getD []).takeWhile fun c => c ≠ '/'⟩

/-- The path component of an absolute URL `scheme://authority/path...`,
including its leading slash.  Used only to *state* claims that speak about
the URL path. -/
def urlPath (u : String) : String :=
  ⟨((afterScheme u.data).getD []).dropWhile fun c => c ≠ '/'⟩

/-- One cached article record, as built by `scrape_website_content` and
stored in `via_website_content.json`.  `states`/`embedding` are `Option`
because the code tests for key presence (`'states' in article`). -/
structure Article where
  url : String
  title : String
  content : String
  description : String
  type : String
  thumbnail : String
  states : Option (List String) := none
  embedding : Option (List ℚ) := none
deriving DecidableEq, Repr

/-- `WEBSITE_URL = 'https://ridewithvia.com'`. -/
def WEBSITE_URL : String := "https://ridewithvia.com"

/-- `STATE_COORDINATES`: approximate state centres, dict of
state code ↦ (latitude, longitude). -/
def STATE_COORDINATES : List (String × ℚ × ℚ) :=
  [("AL", (32.806671, -86.791130)), ("AK", (61.370716, -152.404419)),
   ("AZ", (33.729759, -111.431221)), ("AR", (34.969704, -92.373123)),
   ("CA", (36.116203, -119.681564)), ("CO", (39.059811, -105.311104)),
   ("CT", (41.597782, -72.755371)), ("DE", (39.318523, -75.507141)),
   ("FL", (27.766279, -81.686783)), ("GA", (33.040619, -83.643074)),
   ("HI", (21.094318, -157.498337)), ("ID", (44.240459, -114.478828)),
   ("IL", (40.349457, -88.986137)), ("IN", (39.849426, -86.258278)),
   ("IA", (42.011539, -93.210526)), ("KS", (38.526600, -96.726486)),
   ("KY", (37.668140, -84.670067)), ("LA", (31.169546, -91.867805)),
   ("ME", (44.323535, -69.765261)), ("MD", (39.063946, -76.802101)),
   ("MA", (42.230171, -71.530106)), ("MI", (43.326618, -84.536095)),
   ("MN", (45.694454, -93.900192)), ("MS", (32.741646, -89.678696)),
   ("MO", (38.572954, -92.189283)), ("MT", (46.921925, -110.454353)),
   ("NE", (41.125370, -98.268082)), ("NV", (38.313515, -117.055374)),
   ("NH", (43.452492, -71.563896)), ("NJ", (40.298904, -74.521011)),
   ("NM", (34.840515, -106.248482)), ("NY", (42.165726, -74.948051)),
   ("NC", (35.630066, -79.806419)), ("ND", (47.528912, -99.784012)),
   ("OH", (40.388783, -82.764915)), ("OK", (35.565342, -96.928917)),
   ("OR", (44.572021, -122.070938)), ("PA", (40.590752, -77.209755)),
   ("RI", (41.680893, -71.51178)), ("SC", (33.856892, -80.945007)),
   ("SD", (44.299782, -99.438828)), ("TN", (35.747845, -86.692345)),
   ("TX", (31.054487, -97.563461)), ("UT", (40.150032, -111.892622)),
   ("VT", (44.045876, -72.710686)), ("VA", (37.769337, -78.169968)),
   ("WA", (47.400902, -121.490494)), ("WV", (38.491226, -80.954453)),
   ("WI", (44.268543, -89.616508)), ("WY", (42.755966, -107.302490)),
   ("DC", (38.907192, -77.036873))]

/-- Dictionary access `STATE_COORDINATES[s]` / the membership test
`s in STATE_COORDINATES`. -/
def lookupState (s : String) : Option (ℚ × ℚ) :=
  STATE_COORDINATES.lookup s

/-- `math.atan2 y x` (two-argument arctangent). -/
noncomputable def atan2 (y x : ℝ) : ℝ :=
  if 0 < x then Real.arctan (y / x)
  else if x < 0 ∧ 0 ≤ y then Real.arctan (y / x) + Real.pi
  else if x < 0 ∧ y < 0 then Real.arctan (y / x) - Real.pi
  else if x = 0 ∧ 0 < y then Real.pi / 2
  else if x = 0 ∧ y < 0 then -(Real.pi / 2)
  else 0

/-- `math.radians x` : degrees to radians. -/
noncomputable def radiansR (x : ℚ) : ℝ := (x : ℝ) * Real.pi / 180

/-- `calculate_distance(lat1, lon1, lat2, lon2)` — Haversine great-circle
distance in miles (Earth radius 3959). -/
noncomputable def calculate_distance (lat1 lon1 lat2 lon2 : ℚ) : ℝ :=
  let R : ℝ := 3959
  let la1 := radiansR lat1
  let lo1 := radiansR lon1
  let la2 := radiansR lat2
  let lo2 := radiansR lon2
  let dlat := la2 - la1
  let dlon := lo2 - lo1
  let a := Real.sin (dlat / 2) ^ 2 +
    Real.cos la1 * Real.cos la2 * Real.sin (dlon / 2) ^ 2
  let c := 2 * atan2 (Real.sqrt a) (Real.sqrt (1 - a))
  R * c

/-! ## Crawler link layer (`scrape_website_content`, discovery phase)

The body of `for link in soup.find_all('a', href=True)` normalizes one
`href`, decides whether to enqueue it, and (when a usable title exists)
creates the stub article record. -/

/-- URL normalization for one anchor `href`:
relative paths are resolved against the origin (`urljoin(WEBSITE_URL, href)`
for an `href` starting with `/` but not `//` simply prefixes the origin;
the protocol-relative `//host/...` corner of `urljoin`, which replaces the
authority, is outside this model — the enqueue filter re-checks the
substring on the result either way), absolute `http...` links are kept only
when they contain the substring `ridewithvia.com`; everything else is
dropped (`continue`). -/
def normalizeLink (href : String) : Option String :=
  if strStartsWith href "/" then some (WEBSITE_URL ++ href)
  else if strStartsWith href "http" && strContains href "ridewithvia.com" then some href
  else none

/-- The allow-list test
`any(path in full_url for path in ['/blog/', '/resources/', '/solutions/',
'/audience/', '/case-studies/', '/about/'])`. -/
def allowListed (full_url : String) : Bool :=
  ["/blog/", "/resources/", "/solutions/", "/audience/", "/case-studies/", "/about/"].any
    (fun p => strContains full_url p)

/-- The enqueue decision for one `href` given the current `seen_urls` set:
the URL appended to `urls_to_visit`, if any. -/
def enqueueDecision (seen : List String) (href : String) : Option String :=
  match normalizeLink href with
  | none => none
  | some full_url =>
    if strContains full_url "ridewithvia.com" && !seen.contains full_url
        && allowListed full_url then
      some full_url
    else none

/-- `# Determine article type based on URL path` — the if/elif chain over
substring tests on the full URL. -/
def classifyType (full_url : String) : String :=
  if strContains full_url "/blog/" then "blog"
  else if strContains full_url "/resources/" then "resource"
  else if strContains full_url "/case-studies/" then "case-study"
  else if strContains full_url "/solutions/" then "solution"
  else if strContains full_url "/audience/" then "audience"
  else "page"

/-- The title fallback chain: anchor text, else anchor `title` attribute,
else `aria-label`; if that is empty or shorter than 5 characters, the page
`<title>` (when present), else the last URL path segment. -/
def chooseTitle (linkText attrTitle ariaLabel : String) (pageTitle : Option String)
    (full_url : String) : String :=
  let t := if linkText ≠ "" then linkText
    else if attrTitle ≠ "" then attrTitle else ariaLabel
  if t = "" || t.length < 5 then
    match pageTitle with
    | some p => p
    | none => lastSegment full_url
  else t

/-- The stub article record appended to `articles` during discovery. -/
def mkArticle (full_url title : String) : Article :=
  { url := full_url, title := title, content := "", description := "",
    type := classifyType full_url, thumbnail := "" }

/-- Processing of one enqueued link into an article record: `none` when the
link is dropped or the chosen title fails `title and len(title) > 5 and
len(title) < 300`. -/
def processLink (seen : List String) (href linkText attrTitle ariaLabel : String)
    (pageTitle : Option String) : Option Article :=
  match enqueueDecision seen href with
  | none => none
  | some full_url =>
    let title := chooseTitle linkText attrTitle ariaLabel pageTitle full_url
    if title ≠ "" && 5 < title.length && title.length < 300 then
      some (mkArticle full_url title)
    else none

/-! ## Embedding layer (`get_article_embedding`, `cosine_similarity`) -/

/-- Python truthiness of `article.get('embedding')` / `article.get('states')`:
the key is present and its list value is non-empty. -/
def optTruthy {α : Type} : Option (List α) → Bool
  | some l => !l.isEmpty
  | none => false

/-- The text handed to the embedding endpoint: `' '.join` of the truthy parts
`title`, `description`, `content[:500]`. -/
def embedText (a : Article) : String :=
  strIntercalate " "
    ((if a.title ≠ "" then [a.title] else []) ++
     (if a.description ≠ "" then [a.description] else []) ++
     (if a.content ≠ "" then [strTake a.content 500] else []))

/-- `get_article_embedding(article, client, save_to_cache)`.

Python mutates `article` in place (`article['embedding'] = embedding`); the
embedding returns the updated article together with the returned value
(`none` = the function returned `None`, i.e. empty text or a raised
embedding error). -/
def get_article_embedding (embed : String → Option (List ℚ)) (a : Article)
    (save_to_cache : Bool := true) : Article × Option (List ℚ) :=
  if optTruthy a.embedding then (a, a.embedding)
  else
    let text := embedText a
    if strTrim text = "" then (a, none)
    else
      match embed text with
      | some e => (if save_to_cache then { a with embedding := some e } else a, some e)
      | none => (a, none)

/-- `np.dot a b` for equal-length vectors (the only way the code calls it). -/
def dotProd (a b : List ℚ) : ℚ :=
  ((a.zip b).map fun p => p.1 * p.2).sum

/-- Sum of squares of the components, so that
`np.linalg.norm a = Real.sqrt (sumSq a)`. -/
def sumSq (a : List ℚ) : ℚ :=
  (a.map fun x => x * x).sum

/-- `np.linalg.norm a` — the Euclidean norm. -/
noncomputable def vecNorm (a : List ℚ) : ℝ :=
  Real.sqrt ((sumSq a : ℚ) : ℝ)

/-- `cosine_similarity(a, b) = np.dot(a, b) / (np.linalg.norm(a) *
np.linalg.norm(b))`.  There is no guard against a zero denominator; in the
total Lean model division by zero yields `0`, where NumPy would produce
`nan`. -/
noncomputable def cosine_similarity (a b : List ℚ) : ℝ :=
  ((dotProd a b : ℚ) : ℝ) / (vecNorm a * vecNorm b)

/-! ## Similarity ranking (`find_similar_articles`) -/

/-- One iteration of the scoring loop, producing the `(similarity, article)`
pair appended to `article_scores`.  The pair additionally carries the loop
index `i` of the article — a ghost value, invisible to the computation, used
only to state order-stability properties.  The article in the pair is the
article *after* the in-place mutation done by `get_article_embedding`
(Python appends the very dict it just mutated). -/
noncomputable def articleEntry (embed : String → Option (List ℚ)) (qe : List ℚ)
    (i : ℕ) (a : Article) : ℝ × ℕ × Article :=
  let p := get_article_embedding embed a
  match p.2 with
  | some v => if v ≠ [] then (cosine_similarity qe v, i, p.1) else ((0 : ℝ), i, p.1)
  | none => ((0 : ℝ), i, p.1)

/-- The test `if 'embedding' not in article or not article.get('embedding'):
embeddings_generated += 1`, evaluated (as in the source) *after*
`get_article_embedding` has run on the article, and only when the returned
`embedding` is truthy. -/
def countedNew (embed : String → Option (List ℚ)) (a : Article) : Bool :=
  let p := get_article_embedding embed a
  optTruthy p.2 && !(optTruthy p.1.embedding)

/-- The sort relation of `article_scores.sort(key=lambda x: x[0],
reverse=True)`: scores in non-increasing order. -/
def scoreGE (x y : ℝ × ℕ × Article) : Prop := y.1 ≤ x.1

noncomputable instance : DecidableRel scoreGE :=
  fun x y => Real.decidableLE y.1 x.1

instance : IsTotal (ℝ × ℕ × Article) scoreGE := ⟨fun x y => le_total y.1 x.1⟩

instance : IsTrans (ℝ × ℕ × Article) scoreGE :=
  ⟨fun _ _ _ h₁ h₂ => le_trans h₂ h₁⟩

/-- Python's `list.sort` is a stable sort; any stable sort by the same key
computes the same list, so it is modelled by the stable
`List.insertionSort scoreGE`. -/
noncomputable def sortScores (l : List (ℝ × ℕ × Article)) : List (ℝ × ℕ × Article) :=
  List.insertionSort scoreGE l

/-- Ghost-index comparison: `x` sits strictly earlier in the input list
than `y`. -/
def idxLt (x y : ℝ × ℕ × Article) : Prop := x.2.1 < y.2.1

/-- Order stability: whenever two entries carry equal scores, the one
appearing earlier in the sorted list also appeared earlier in the input. -/
def stableTie (x y : ℝ × ℕ × Article) : Prop := x.1 = y.1 → x.2.1 < y.2.1

/-- The value of one call to `find_similar_articles`:
* `output` — the returned list;
* `ranked` — the sorted `article_scores` list (with ghost input indices);
* `updated` — the `articles` list after the loop's in-place embedding
  mutations;
* `embeddingsGenerated` — the final value of `embeddings_generated`;
* `cacheSaved` — whether the block rewriting `CONTENT_CACHE_FILE` runs. -/
structure RankResult where
  output : List Article
  ranked : List (ℝ × ℕ × Article)
  updated : List Article
  embeddingsGenerated : ℕ
  cacheSaved : Bool

/-- `find_similar_articles(query, articles, client, top_k)`.

The embedding endpoint is the parameter `embed`; `embed query = none` models
the `except` branch of the query-embedding call (which warns and returns
`articles[:top_k]`). -/
noncomputable def find_similar_articles (query : String) (articles : List Article)
    (embed : String → Option (List ℚ)) (top_k : ℕ) : RankResult :=
  match embed query with
  | none =>
    { output := articles.take top_k, ranked := [], updated := articles,
      embeddingsGenerated := 0, cacheSaved := false }
  | some query_embedding =>
    let article_scores := articles.enum.map fun p =>
      articleEntry embed query_embedding p.1 p.2
    let updated := articles.map fun a => (get_article_embedding embed a).1
    let gen := articles.countP fun a => countedNew embed a
    let ranked := sortScores article_scores
    { output := (ranked.take top_k).map fun e => e.2.2, ranked := ranked,
      updated := updated, embeddingsGenerated := gen,
      cacheSaved := decide (0 < gen) }

/-! ## Geographic filter (`get_articles_by_location`) -/

/-- The partition test `'states' in article and article.get('states')`. -/
def hasStates (a : Article) : Bool :=
  optTruthy a.states

/-- Whether one state-tagged article matches the location: some of its states
is a key of `STATE_COORDINATES` whose centre lies within `max_distance`
miles (the inner `for state in article['states']: ... break` loop). -/
noncomputable def stateMatches (user_lat user_lon : ℚ) (max_distance : ℚ)
    (a : Article) : Bool :=
  (a.states.getD []).any fun s =>
    match lookupState s with
    | some c =>
      decide (calculate_distance user_lat user_lon c.1 c.2 ≤ (max_distance : ℝ))
    | none => false

/-- The `filtered` list of location-matched, state-tagged articles (empty
when the user state is unknown, in which case the caller returns early). -/
noncomputable def locMatches (articles : List Article) (user_state : String)
    (max_distance : ℚ) : List Article :=
  match lookupState user_state with
  | none => []
  | some u => (articles.filter hasStates).filter (stateMatches u.1 u.2 max_distance)

/-- `get_articles_by_location(articles, user_state, max_distance)`.

`shuffle` models `random.shuffle` on the copied list of untagged articles; it
is an arbitrary caller-supplied function, and the theorems about this
definition assume it permutes its input. -/
noncomputable def get_articles_by_location (articles : List Article)
    (user_state : String) (max_distance : ℚ)
    (shuffle : List Article → List Article) : List Article :=
  match lookupState user_state with
  | none => articles
  | some _ =>
    let articles_without_states := articles.filter fun a => !hasStates a
    let filtered := locMatches articles user_state max_distance
    if 4 ≤ filtered.length then filtered
    else if 0 < filtered.length then
      filtered ++ articles_without_states.take (4 - filtered.length)
    else (shuffle articles_without_states).take 10

/-! ## Recommender (`recommend_articles`) -/

/-- The keyword test of the category filter: the keyword occurs in the
lower-cased content, title or description. -/
def keywordHit (a : Article) (kw : String) : Bool :=
  strContains (strLower a.content) kw || strContains (strLower a.title) kw ||
    strContains (strLower a.description) kw

/-- Keywords for `user_type == 'city'`. -/
def cityKeywords : List String :=
  ["microtransit", "paratransit", "city", "municipal", "urban"]

/-- Keywords for `user_type == 'transit_agency'`. -/
def agencyKeywords : List String :=
  ["paratransit", "transit", "agency", "public transportation"]

/-- The category filter over the corpus. -/
def relevantArticles (articles : List Article) (user_type : String) : List Article :=
  if user_type = "city" then
    articles.filter fun a => cityKeywords.any (keywordHit a)
  else if user_type = "transit_agency" then
    articles.filter fun a => agencyKeywords.any (keywordHit a)
  else articles

/-- The case-study test (type tag, title/content markers, URL markers). -/
def isCaseStudy (a : Article) : Bool :=
  strContains (strLower a.type) "case-study" ||
  strContains (strLower a.title) "case study" ||
  strContains (strTake (strLower a.content) 500) "case study" ||
  strContains (strLower a.url) "/case-studies/" ||
  strContains (strLower a.url) "-case-study" ||
  strContains (strLower a.url) "case-study" ||
  (strContains (strLower a.title) "success story" ||
   strContains (strTake (strLower a.content) 500) "success story")

/-- `re.findall(r'\d+', reply)` followed by `int`: the maximal digit runs of
the reply, as numbers.  The accumulator holds the digits of the current run,
most recent first. -/
def digitRunsAux : List Char → List Char → List ℕ
  | [], acc =>
    if acc.isEmpty then [] else [acc.reverse.foldl (fun n c => n * 10 + (c.toNat - 48)) 0]
  | c :: cs, acc =>
    if c.isDigit then digitRunsAux cs (c :: acc)
    else if acc.isEmpty then digitRunsAux cs []
    else acc.reverse.foldl (fun n c => n * 10 + (c.toNat - 48)) 0 :: digitRunsAux cs []

/-- All numbers appearing as maximal digit runs in a string. -/
def digitRuns (s : String) : List ℕ :=
  digitRunsAux s.data []

/-- A default article, standing for the value of an out-of-range Python list
index; the selection code below only indexes within bounds, so this default
is never produced. -/
def defaultArticle : Article :=
  { url := "", title := "", content := "", description := "", type := "",
    thumbnail := "" }

/-- The enumerated short-list line for one article:
number, title, then the description (or the first 200 characters of
content).  The prompt text only matters as the opaque input handed to the
completion capability, so the instruction sentences are condensed and the
extra `Location:` fragment of the case-study variant is omitted. -/
def summaryLine (i : ℕ) (a : Article) : String :=
  toString (i + 1) ++ ". " ++ a.title ++ " - " ++
    (if a.description ≠ "" then a.description else strTake a.content 200)

/-- The short-list block of the two selection prompts: the first 30
candidates, one numbered line each. -/
def articlesSummary (l : List Article) : String :=
  strIntercalate "\n" ((l.take 30).enum.map fun p => summaryLine p.1 p.2)

/-- The index-parsing of an LLM reply:
`[int(x) - 1 for x in numbers[:3] if x.isdigit() and 0 <= int(x) - 1 < n]`
(with `limit = 3` for general articles and `limit = 4` for case studies). -/
def parseSelection (reply : String) (limit n : ℕ) : List ℕ :=
  ((digitRuns reply).take limit).filterMap fun k =>
    if 1 ≤ k ∧ k - 1 < n then some (k - 1) else none

/-- The enumerate-and-rank selection used for both general articles and case
studies: present the first 30 candidates to the completion capability, parse
up to `limit` indices, fall back to the first `limit` candidates when the
call fails or parsing yields nothing. -/
def selectWithLLM (complete : String → Option String) (prompt : String)
    (candidates : List Article) (limit : ℕ) : List Article :=
  match complete (prompt ++ "\n\n" ++ articlesSummary candidates) with
  | none => candidates.take limit
  | some reply =>
    let idxs := parseSelection reply limit candidates.length
    if idxs.isEmpty then candidates.take limit
    else (idxs.take limit).map fun i => candidates.getD i defaultArticle

/-- The value returned by `recommend_articles`: `general` is the list of
general recommendations, `case_studies` is `none` exactly when the Python
function returns `None` for that key (`selected_case_studies = None`). -/
structure RecommendResult where
  general : List Article
  case_studies : Option (List Article)
deriving DecidableEq, Repr

/-- `recommend_articles(articles, user_type, user_state, client)`.

`complete` models the chat-completion endpoint (prompt ↦ reply, `none` = a
raised exception); `shuffle` models `random.shuffle` inside
`get_articles_by_location`. -/
noncomputable def recommend_articles (articles : List Article)
    (user_type user_state : String) (complete : String → Option String)
    (shuffle : List Article → List Article) : RecommendResult :=
  if articles.isEmpty then { general := [], case_studies := some [] }
  else
    let relevant := relevantArticles articles user_type
    let case_studies := relevant.filter isCaseStudy
    -- `a not in case_studies` for `a` in `relevant` is exactly `not (isCaseStudy a)`,
    -- since `case_studies` holds every member of `relevant` satisfying the test
    -- and Python `in` compares dicts by value.
    let general_articles := relevant.filter fun a => !isCaseStudy a
    let selected_general :=
      if general_articles.length ≤ 3 then general_articles
      else
        selectWithLLM complete
          ("Select the top 3 most relevant articles for a " ++
            (if user_type = "city" then "city" else "transit agency") ++
            " in " ++ user_state ++ ":")
          general_articles 3
    let selected_case_studies : Option (List Article) :=
      if case_studies.isEmpty then none
      else
        let location_case_studies :=
          get_articles_by_location case_studies user_state 500 shuffle
        if location_case_studies.isEmpty then none
        else if location_case_studies.length ≤ 4 then some location_case_studies
        else
          some (selectWithLLM complete
            ("Select the top 4 most relevant case studies for " ++ user_state ++
              ". Prioritize case studies from " ++ user_state ++ " or nearby states:")
            location_case_studies 4)
    { general := selected_general, case_studies := selected_case_studies }

/-! ## Concrete data for witnesses and counterexamples -/

/-- An embedding oracle answering the query `"q"` and the document text
`"hello"`, failing on everything else. -/
def embedOracle1 : String → Option (List ℚ) := fun s =>
  if s = "q" then some [1] else if s = "hello" then some [2] else none

/-- An embedding oracle answering only the query `"q"`. -/
def embedOracle2 : String → Option (List ℚ) := fun s =>
  if s = "q" then some [1] else none

/-- An embedding oracle that always fails. -/
def embedOracleNone : String → Option (List ℚ) := fun _ => none

/-- A cached article that does not carry an embedding yet. -/
def exFresh : Article :=
  { url := "https://ridewithvia.com/blog/f", title := "hello", content := "",
    description := "", type := "blog", thumbnail := "" }

/-- A cached article carrying the stored embedding `[-1]`. -/
def exStored : Article :=
  { url := "https://ridewithvia.com/blog/s", title := "alpha transit",
    content := "", description := "", type := "blog", thumbnail := "",
    embedding := some [-1] }

/-- A cached article without an embedding whose text the failing oracles
cannot embed. -/
def exFail : Article :=
  { url := "https://ridewithvia.com/blog/t", title := "beta transit",
    content := "", description := "", type := "blog", thumbnail := "" }

/-- An article whose `states` key is present but holds the empty list. -/
def exTaggedEmpty : Article :=
  { url := "https://ridewithvia.com/case-studies/x", title := "tagged empty",
    content := "", description := "", type := "case-study", thumbnail := "",
    states := some [] }

/-- An article with no `states` key at all. -/
def exUntagged : Article :=
  { url := "https://ridewithvia.com/case-studies/y", title := "untagged one",
    content := "", description := "", type := "case-study", thumbnail := "" }

/-! ## Helper lemmas -/

/-- Unfolding `find_similar_articles` when the query embedding call fails. -/
theorem find_similar_articles_none {query : String} {articles : List Article}
    {embed : String → Option (List ℚ)} {top_k : ℕ} (h : embed query = none) :
    find_similar_articles query articles embed top_k =
      { output := articles.take top_k, ranked := [], updated := articles,
        embeddingsGenerated := 0, cacheSaved := false } := by
  unfold find_similar_articles
  rw [h]

/-- Unfolding `find_similar_articles` when the query embedding call
succeeds. -/
theorem find_similar_articles_some {query : String} {articles : List Article}
    {embed : String → Option (List ℚ)} {top_k : ℕ} {qe : List ℚ}
    (h : embed query = some qe) :
    find_similar_articles query articles embed top_k =
      { output := ((sortScores (articles.enum.map fun p =>
            articleEntry embed qe p.1 p.2)).take top_k).map fun e => e.2.2,
        ranked := sortScores (articles.enum.map fun p =>
            articleEntry embed qe p.1 p.2),
        updated := articles.map fun a => (get_article_embedding embed a).1,
        embeddingsGenerated := articles.countP fun a => countedNew embed a,
        cacheSaved := decide (0 < articles.countP fun a => countedNew embed a) } := by
  unfold find_similar_articles
  rw [h]

/-- The freshness test guarding `embeddings_generated += 1` can never
succeed: it runs after `get_article_embedding` has already stored the new
embedding in the article, so whenever the returned embedding is truthy the
article's `embedding` key is present and truthy as well. -/
theorem countedNew_eq_false (embed : String → Option (List ℚ)) (a : Article) :
    countedNew embed a = false := by
  unfold countedNew get_article_embedding
  by_cases h1 : optTruthy a.embedding
  · simp [h1]
  · simp only [h1, if_false, Bool.false_eq_true]
    by_cases h2 : strTrim (embedText a) = ""
    · simp [h2, optTruthy]
    · simp only [h2, if_false]
      cases hembed : embed (embedText a) with
      | none => simp [optTruthy]
      | some e => simp [optTruthy]

/-- `embeddings_generated` is `0` on every call. -/
theorem embeddingsGenerated_eq_zero (query : String) (articles : List Article)
    (embed : String → Option (List ℚ)) (top_k : ℕ) :
    (find_similar_articles query articles embed top_k).embeddingsGenerated = 0 := by
  cases hq : embed query with
  | none => rw [find_similar_articles_none hq]
  | some qe =>
    rw [find_similar_articles_some hq]
    simp only
    rw [List.countP_eq_zero]
    intro a _
    simp [countedNew_eq_false]

/-- Inserting an entry whose ghost index is smaller than every index in an
already stable list keeps the list stable. -/
theorem pairwise_stableTie_orderedInsert (a : ℝ × ℕ × Article) :
    ∀ L : List (ℝ × ℕ × Article), L.Pairwise stableTie →
      (∀ y ∈ L, a.2.1 < y.2.1) →
      (List.orderedInsert scoreGE a L).Pairwise stableTie
  | [], _, _ => List.pairwise_singleton _ _
  | b :: L, hL, hP => by
    rw [List.orderedInsert]
    by_cases hr : scoreGE a b
    · rw [if_pos hr]
      refine List.pairwise_cons.mpr ⟨fun y hy => ?_, hL⟩
      intro _
      exact hP y hy
    · rw [if_neg hr]
      obtain ⟨hb, hL'⟩ := List.pairwise_cons.mp hL
      refine List.pairwise_cons.mpr ⟨fun y hy => ?_, ?_⟩
      · rcases (List.mem_orderedInsert scoreGE).mp hy with h | h
        · subst h
          intro hEq
          exact absurd (le_of_eq hEq) hr
        · exact hb y h
      · exact pairwise_stableTie_orderedInsert a L hL'
          fun y hy => hP y (List.mem_cons_of_mem b hy)

/-- If the input entries carry strictly increasing ghost indices, the sorted
list is stable: ties appear in input order. -/
theorem sortScores_stable :
    ∀ l : List (ℝ × ℕ × Article), l.Pairwise idxLt →
      (sortScores l).Pairwise stableTie
  | [], _ => List.Pairwise.nil
  | a :: l, h => by
    obtain ⟨ha, hl⟩ := List.pairwise_cons.mp h
    show (List.orderedInsert scoreGE a (List.insertionSort scoreGE l)).Pairwise stableTie
    refine pairwise_stableTie_orderedInsert a _ (sortScores_stable l hl) ?_
    intro y hy
    exact ha y ((List.perm_insertionSort scoreGE l).mem_iff.mp hy)

/-- The sorted list is non-increasing in the similarity score. -/
theorem sortScores_sorted (l : List (ℝ × ℕ × Article)) :
    (sortScores l).Pairwise scoreGE :=
  List.sorted_insertionSort scoreGE l

/-- The ghost index stored by `articleEntry` is its input position. -/
theorem articleEntry_idx (embed : String → Option (List ℚ)) (qe : List ℚ)
    (i : ℕ) (a : Article) : (articleEntry embed qe i a).2.1 = i := by
  unfold articleEntry
  cases h : (get_article_embedding embed a).2 with
  | none => simp [h]
  | some v => by_cases hv : v = [] <;> simp [h, hv]

/-- The scored entries of one ranking call carry strictly increasing ghost
indices. -/
theorem scoredEntries_pairwise_idxLt (embed : String → Option (List ℚ))
    (qe : List ℚ) (articles : List Article) :
    (articles.enum.map fun p => articleEntry embed qe p.1 p.2).Pairwise idxLt := by
  rw [List.pairwise_map]
  have h : (List.map Prod.fst articles.enum).Pairwise (· < ·) := by
    rw [List.enum_map_fst]
    exact List.pairwise_lt_range _
  rw [List.pairwise_map] at h
  refine h.imp_of_mem ?_
  intro p q _ _ hpq
  show (articleEntry embed qe p.1 p.2).2.1 < (articleEntry embed qe q.1 q.2).2.1
  rw [articleEntry_idx, articleEntry_idx]
  exact hpq

/-- In a score-sorted list every positively scored entry sits strictly
before every zero-scored entry. -/
theorem pos_before_zero {l : List (ℝ × ℕ × Article)} (hs : l.Pairwise scoreGE)
    (p q : Fin l.length) (hp : 0 < (l.get p).1) (hq : (l.get q).1 = 0) :
    p < q := by
  rcases lt_trichotomy p q with h | h | h
  · exact h
  · exfalso
    rw [h, hq] at hp
    exact lt_irrefl 0 hp
  · exfalso
    have hle : (l.get p).1 ≤ (l.get q).1 := (List.pairwise_iff_get.mp hs) q p h
    rw [hq] at hle
    exact absurd (lt_of_lt_of_le hp hle) (lt_irrefl 0)

/-! ## Claims -/

/-- C1: the claim says that whenever a ranking call newly computes at least
one document embedding, the full article list is written back to the corpus
snapshot before returning.  The code never does this: the freshness test
guarding `embeddings_generated += 1` runs after `get_article_embedding` has
already stored the new embedding in the article dict, so the counter stays
`0` on every call and the write-back block is unreachable.  The first
conjunct proves the write never happens on any input; the rest evaluates the
failing input — an article without an embedding whose embed call succeeds
(the new vector is visibly attached in `updated`), yet `cacheSaved` is
`false`. -/
theorem claim_C1_writeback_never_runs :
    (∀ (query : String) (articles : List Article)
      (embed : String → Option (List ℚ)) (top_k : ℕ),
        (find_similar_articles query articles embed top_k).cacheSaved = false) ∧
    (find_similar_articles "q" [exFresh] embedOracle1 25).updated =
        [{ exFresh with embedding := some [2] }] ∧
    exFresh.embedding = none ∧
    (get_article_embedding embedOracle1 exFresh).2 = some [2] ∧
    (find_similar_articles "q" [exFresh] embedOracle1 25).cacheSaved = false := by
  have hgen : ∀ (articles : List Article) (embed : String → Option (List ℚ)),
      (articles.countP fun a => countedNew embed a) = 0 := by
    intro articles embed
    rw [List.countP_eq_zero]
    intro a _
    simp [countedNew_eq_false]
  refine ⟨?_, by decide, by decide, by decide, by decide⟩
  intro query articles embed top_k
  cases hq : embed query with
  | none => rw [find_similar_articles_none hq]
  | some qe =>
    rw [find_similar_articles_some hq]
    simp [hgen]

/-- C5: when computing the query embedding fails, `find_similar_articles`
returns exactly the first `top_k` articles in their original corpus order;
the failure is absorbed (the model is a total function whose fallback value
is `articles.take top_k`). -/
theorem claim_C5_query_failure_fallback (query : String) (articles : List Article)
    (embed : String → Option (List ℚ)) (top_k : ℕ) (h : embed query = none) :
    (find_similar_articles query articles embed top_k).output = articles.take top_k := by
  rw [find_similar_articles_none h]

/-- Witness for C5 at a concrete input: the always-failing oracle makes the
call return the one-element prefix of the corpus. -/
theorem claim_C5_witness :
    embedOracleNone "q" = none ∧
    (find_similar_articles "q" [exStored, exFail] embedOracleNone 1).output =
      [exStored, exFail].take 1 :=
  ⟨rfl, claim_C5_query_failure_fallback "q" [exStored, exFail] embedOracleNone 1 rfl⟩

/-- C9: `cosine_similarity` divides by `‖a‖ * ‖b‖` with no zero guard; for
an all-zero vector the divisor is `0`, so the division-by-zero branch is
reached.  NumPy produces `nan` there; the total Lean model returns the junk
value `0` (in particular not the cosine of anything — an all-zero vector is
not similar to itself with value 1). -/
theorem claim_C9_unguarded_zero_division (a b : List ℚ) (h : ∀ x ∈ a, x = 0) :
    vecNorm a * vecNorm b = 0 ∧ cosine_similarity a b = 0 := by
  have hs : sumSq a = 0 := by
    unfold sumSq
    apply List.sum_eq_zero
    intro y hy
    obtain ⟨x, hx, rfl⟩ := List.mem_map.mp hy
    rw [h x hx]
    ring
  have hn : vecNorm a = 0 := by
    unfold vecNorm
    rw [hs]
    simp
  constructor
  · rw [hn, zero_mul]
  · unfold cosine_similarity
    rw [hn, zero_mul, div_zero]

/-- Witness for C9 at the concrete all-zero vector `[0, 0]`. -/
theorem claim_C9_witness :
    vecNorm [0, 0] * vecNorm [1, 2] = 0 ∧ cosine_similarity [0, 0] [1, 2] = 0 :=
  claim_C9_unguarded_zero_division [0, 0] [1, 2] (by decide)

/-- C10: when `user_state` is not a key of `STATE_COORDINATES`, the function
returns its input unchanged — no distance filter, no untagged-only
restriction, no 10-item bound. -/
theorem claim_C10_unknown_state_identity (articles : List Article)
    (user_state : String) (max_distance : ℚ)
    (shuffle : List Article → List Article)
    (h : lookupState user_state = none) :
    get_articles_by_location articles user_state max_distance shuffle = articles := by
  unfold get_articles_by_location
  rw [h]

/-- Witness for C10 at the unknown region code `"ZZ"`. -/
theorem claim_C10_witness :
    lookupState "ZZ" = none ∧
    get_articles_by_location [exStored, exUntagged] "ZZ" 500 id =
      [exStored, exUntagged] :=
  ⟨by decide,
    claim_C10_unknown_state_identity [exStored, exUntagged] "ZZ" 500 id (by decide)⟩

/-- C7 (amended): `recommend_articles` on an empty corpus returns an empty
`general` list and the *empty list* (not the `None` marker) as the
case-study component, without raising. -/
theorem claim_C7_empty_corpus (user_type user_state : String)
    (complete : String → Option String) (shuffle : List Article → List Article) :
    recommend_articles [] user_type user_state complete shuffle =
      { general := [], case_studies := some [] } := by
  unfold recommend_articles
  simp

/-- C7 counterexample: on the empty corpus the case-study component is the
empty list `some []`, not the `none` marker the claim requires (the code
returns `{'general': [], 'case_studies': []}`, whereas `None` is the marker
it uses elsewhere for "no geographically relevant case studies"). -/
theorem claim_C7_counterexample :
    (recommend_articles [] "city" "CA" (fun _ => none) id).case_studies = some [] ∧
    (recommend_articles [] "city" "CA" (fun _ => none) id).case_studies ≠ none := by
  refine ⟨by decide, by decide⟩

/-- C4: every ranking call returns at most `top_k` documents; the ranked
score list is ordered by non-increasing similarity score (`scoreGE`), and
ties keep the documents' original input order (`stableTie` over the ghost
input indices). -/
theorem claim_C4_topk_sorted_stable (query : String) (articles : List Article)
    (embed : String → Option (List ℚ)) (top_k : ℕ) :
    (find_similar_articles query articles embed top_k).output.length ≤ top_k ∧
    (find_similar_articles query articles embed top_k).ranked.Pairwise scoreGE ∧
    (find_similar_articles query articles embed top_k).ranked.Pairwise stableTie := by
  cases hq : embed query with
  | none =>
    rw [find_similar_articles_none hq]
    exact ⟨List.length_take_le _ _, List.Pairwise.nil, List.Pairwise.nil⟩
  | some qe =>
    rw [find_similar_articles_some hq]
    refine ⟨?_, sortScores_sorted _,
      sortScores_stable _ (scoredEntries_pairwise_idxLt embed qe articles)⟩
    simp only [List.length_map]
    exact List.length_take_le _ _

/-- C2 (amended): a document whose embedding resolution fails is assigned
the similarity score `0.0` (not the minimum possible) and stays in the
candidate set; every document with a *positive* computed cosine similarity
is ordered before every zero-scored document. -/
theorem claim_C2_failed_doc_scored_zero (query : String) (articles : List Article)
    (embed : String → Option (List ℚ)) (top_k : ℕ) (qe : List ℚ) (i : ℕ)
    (hi : i < articles.length) (hq : embed query = some qe)
    (hfail : (get_article_embedding embed articles[i]).2 = none) :
    ((0 : ℝ), i, (get_article_embedding embed articles[i]).1) ∈
      (find_similar_articles query articles embed top_k).ranked ∧
    ∀ (p q : Fin (find_similar_articles query articles embed top_k).ranked.length),
      0 < ((find_similar_articles query articles embed top_k).ranked.get p).1 →
      ((find_similar_articles query articles embed top_k).ranked.get q).1 = 0 →
      p < q := by
  constructor
  · rw [find_similar_articles_some hq]
    show _ ∈ sortScores _
    unfold sortScores
    rw [(List.perm_insertionSort scoreGE _).mem_iff]
    have hlen : i < (articles.enum.map fun p => articleEntry embed qe p.1 p.2).length := by
      simpa using hi
    have hentry : ((articles.enum.map fun p => articleEntry embed qe p.1 p.2).get
        ⟨i, hlen⟩) = ((0 : ℝ), i, (get_article_embedding embed articles[i]).1) := by
      have h1 : ((articles.enum.map fun p => articleEntry embed qe p.1 p.2).get
          ⟨i, hlen⟩) = articleEntry embed qe i articles[i] := by
        rw [List.get_eq_getElem, List.getElem_map, List.getElem_enum]
      rw [h1]
      simp [articleEntry, hfail]
    rw [← hentry]
    exact List.get_mem _ i hlen
  · intro p q hp hq0
    have hs : (find_similar_articles query articles embed top_k).ranked.Pairwise scoreGE := by
      rw [find_similar_articles_some hq]
      exact sortScores_sorted _
    exact pos_before_zero hs p q hp hq0

/-- Witness for C2 at a concrete input: the article `exFail` (whose text the
oracle cannot embed) is kept in the candidate set with score `0`. -/
theorem claim_C2_witness :
    ((0 : ℝ), 0, (get_article_embedding embedOracle2 exFail).1) ∈
      (find_similar_articles "q" [exFail] embedOracle2 25).ranked :=
  (claim_C2_failed_doc_scored_zero "q" [exFail] embedOracle2 25 [1] 0 (by decide)
    (by decide) (by decide)).1

/-- C2 counterexample: the claim as stated is false at this concrete input.
The stored embedding of `exStored` yields the computed cosine similarity
`-1` against the query embedding `[1]`, while the failing document `exFail`
is assigned the fixed score `0.0` — which is *not* the minimum possible
similarity score, and the failing document is ranked *before* (not after)
the document that received a computed score: the returned order is
`[exFail, exStored]`. -/
theorem claim_C2_counterexample :
    (find_similar_articles "q" [exStored, exFail] embedOracle2 25).output =
      [exFail, exStored] ∧
    (find_similar_articles "q" [exStored, exFail] embedOracle2 25).ranked.map
      (fun e => e.2.1) = [1, 0] ∧
    (get_article_embedding embedOracle2 exFail).2 = none ∧
    optTruthy exStored.embedding = true ∧
    cosine_similarity [1] [-1] < 0 := by
  have hc : cosine_similarity [1] [-1] = -1 := by
    unfold cosine_similarity vecNorm
    have h1 : dotProd [1] [-1] = -1 := by norm_num [dotProd]
    have h2 : sumSq [1] = 1 := by norm_num [sumSq]
    have h3 : sumSq [-1] = 1 := by norm_num [sumSq]
    rw [h1, h2, h3]
    push_cast
    rw [Real.sqrt_one]
    norm_num
  have hA : articleEntry embedOracle2 [1] 0 exStored =
      (cosine_similarity [1] [-1], 0, exStored) := by
    have hg : get_article_embedding embedOracle2 exStored = (exStored, some [-1]) := by
      decide
    simp [articleEntry, hg]
  have hB : articleEntry embedOracle2 [1] 1 exFail = ((0 : ℝ), 1, exFail) := by
    have hg : get_article_embedding embedOracle2 exFail = (exFail, none) := by decide
    simp [articleEntry, hg]
  have henum : [exStored, exFail].enum = [(0, exStored), (1, exFail)] := rfl
  have hentries : ([exStored, exFail].enum.map fun p =>
      articleEntry embedOracle2 [1] p.1 p.2) =
      [(cosine_similarity [1] [-1], 0, exStored), ((0 : ℝ), 1, exFail)] := by
    rw [henum]
    simp only [List.map_cons, List.map_nil]
    rw [hA, hB]
  have hsort : sortScores [(cosine_similarity [1] [-1], 0, exStored),
      ((0 : ℝ), 1, exFail)] =
      [((0 : ℝ), 1, exFail), (cosine_similarity [1] [-1], 0, exStored)] := by
    unfold sortScores
    simp only [List.insertionSort, List.orderedInsert]
    rw [if_neg]
    intro hle
    have : (0 : ℝ) ≤ cosine_similarity [1] [-1] := hle
    rw [hc] at this
    norm_num at this
  have hq : embedOracle2 "q" = some [1] := by decide
  rw [find_similar_articles_some hq]
  simp only [hentries, hsort]
  refine ⟨rfl, rfl, by decide, by decide, ?_⟩
  rw [hc]
  norm_num

/-- C3 (amended): the crawler keeps a link only when the normalized URL
contains the substring `ridewithvia.com` (relative paths are resolved
against the origin and trivially contain it); the filter is substring
containment on the URL string, not an authority comparison, so URLs whose
authority differs from `ridewithvia.com` can still be enqueued. -/
theorem claim_C3_substring_filter (seen : List String) (href u : String)
    (h : enqueueDecision seen href = some u) :
    strContains u "ridewithvia.com" = true := by
  unfold enqueueDecision at h
  split at h
  · exact absurd h (by simp)
  · split at h
    · rename_i heq hc
      injection h with h'
      subst h'
      rw [Bool.and_eq_true, Bool.and_eq_true] at hc
      exact hc.1.1
    · exact absurd h (by simp)

/-- Witness for C3: a relative link on the blog path is enqueued, and the
enqueued URL indeed contains the substring. -/
theorem claim_C3_witness :
    strContains "https://ridewithvia.com/blog/a" "ridewithvia.com" = true :=
  claim_C3_substring_filter [] "/blog/a" "https://ridewithvia.com/blog/a" (by decide)

/-- C3 counterexample: the anchor `https://notridewithvia.com/blog/x` has
authority `notridewithvia.com`, different from the origin, yet it passes the
substring filter and the allow-list and is enqueued — refuting the claim
that every link whose resolved authority differs from the origin is
discarded. -/
theorem claim_C3_counterexample :
    enqueueDecision [] "https://notridewithvia.com/blog/x" =
      some "https://notridewithvia.com/blog/x" ∧
    urlAuthority "https://notridewithvia.com/blog/x" = "notridewithvia.com" ∧
    urlAuthority "https://notridewithvia.com/blog/x" ≠ "ridewithvia.com" := by
  refine ⟨by decide, by decide, by decide⟩

/-- C6 (amended): the type of every article record created during the
discovery phase is a pure function of its full URL string, decided by
substring tests in the fixed precedence order
`/blog/`, `/resources/`, `/case-studies/`, `/solutions/`, `/audience/`
(first hit wins), with `page` when none matches.  In particular a URL
containing `/case-studies/` is typed `case-study` only when it contains
neither `/blog/` nor `/resources/`. -/
theorem claim_C6_type_precedence (seen : List String)
    (href linkText attrTitle ariaLabel : String) (pageTitle : Option String)
    (a : Article)
    (h : processLink seen href linkText attrTitle ariaLabel pageTitle = some a) :
    a.type = classifyType a.url ∧
    (strContains a.url "/blog/" = true → a.type = "blog") ∧
    (strContains a.url "/blog/" = false → strContains a.url "/resources/" = false →
      strContains a.url "/case-studies/" = true → a.type = "case-study") ∧
    (strContains a.url "/blog/" = false → strContains a.url "/resources/" = false →
      strContains a.url "/case-studies/" = false →
      strContains a.url "/solutions/" = false →
      strContains a.url "/audience/" = false → a.type = "page") := by
  have hmk : ∃ fu t, a = mkArticle fu t := by
    unfold processLink at h
    split at h
    · exact absurd h (by simp)
    · dsimp only at h
      split at h
      · injection h with h'
        exact ⟨_, _, h'.symm⟩
      · exact absurd h (by simp)
  obtain ⟨fu, t, rfl⟩ := hmk
  have hurl : (mkArticle fu t).url = fu := rfl
  have htype : (mkArticle fu t).type = classifyType fu := rfl
  rw [hurl, htype]
  refine ⟨rfl, ?_, ?_, ?_⟩
  · intro h1
    unfold classifyType
    rw [if_pos h1]
  · intro h1 h2 h3
    unfold classifyType
    rw [if_neg (by simp [h1]), if_neg (by simp [h2]), if_pos h3]
  · intro h1 h2 h3 h4 h5
    unfold classifyType
    rw [if_neg (by simp [h1]), if_neg (by simp [h2]), if_neg (by simp [h3]),
      if_neg (by simp [h4]), if_neg (by simp [h5])]

/-- Witness for C6: a discovered blog link produces an article record typed
according to the precedence rules. -/
theorem claim_C6_witness :
    (mkArticle "https://ridewithvia.com/blog/transit-pilot"
        "A transit pilot story").type = "blog" :=
  (claim_C6_type_precedence [] "/blog/transit-pilot" "A transit pilot story" "" "" none
    (mkArticle "https://ridewithvia.com/blog/transit-pilot" "A transit pilot story")
    (by decide)).2.1 (by decide)

/-- C6 counterexample: the discovered URL
`https://ridewithvia.com/blog/case-studies/pilot` has a path containing
`/case-studies/`, yet the created article record is typed `blog` (the
`/blog/` test fires first) — refuting the claim that a URL whose path
contains `/case-studies/` is typed `case-study`. -/
theorem claim_C6_counterexample :
    processLink [] "/blog/case-studies/pilot" "Transit pilot study" "" "" none =
      some (mkArticle "https://ridewithvia.com/blog/case-studies/pilot"
        "Transit pilot study") ∧
    strContains (urlPath "https://ridewithvia.com/blog/case-studies/pilot")
      "/case-studies/" = true ∧
    (mkArticle "https://ridewithvia.com/blog/case-studies/pilot"
      "Transit pilot study").type = "blog" ∧
    (mkArticle "https://ridewithvia.com/blog/case-studies/pilot"
      "Transit pilot study").type ≠ "case-study" := by
  refine ⟨by decide, by decide, by decide, by decide⟩

/-- C8 (amended): for a region with known coordinates, when no state-tagged
document lies within the distance bound (`locMatches` is empty),
`get_articles_by_location` returns at most 10 documents, each drawn from the
untagged portion of the input — the documents whose `states` key is absent
*or empty* (`hasStates = false`, Python's truthiness test). -/
theorem claim_C8_no_match_sample (articles : List Article) (user_state : String)
    (max_distance : ℚ) (shuffle : List Article → List Article)
    (hshuffle : ∀ l, (shuffle l).Perm l)
    (c : ℚ × ℚ) (hknown : lookupState user_state = some c)
    (hnone : locMatches articles user_state max_distance = []) :
    (get_articles_by_location articles user_state max_distance shuffle).length ≤ 10 ∧
    ∀ a ∈ get_articles_by_location articles user_state max_distance shuffle,
      a ∈ articles ∧ hasStates a = false := by
  unfold get_articles_by_location
  simp only [hknown, hnone]
  norm_num
  intro a ha
  have h1 : a ∈ shuffle (articles.filter fun a => !hasStates a) :=
    List.mem_of_mem_take ha
  have h2 : a ∈ articles.filter fun a => !hasStates a :=
    (hshuffle _).mem_iff.mp h1
  obtain ⟨hmem, hflag⟩ := List.mem_filter.mp h2
  exact ⟨hmem, by simpa using hflag⟩

/-- Witness for C8 at a concrete input: one untagged document, known region
`CA`, identity shuffle. -/
theorem claim_C8_witness :
    (get_articles_by_location [exUntagged] "CA" 500 id).length ≤ 10 ∧
    ∀ a ∈ get_articles_by_location [exUntagged] "CA" 500 id,
      a ∈ [exUntagged] ∧ hasStates a = false :=
  claim_C8_no_match_sample [exUntagged] "CA" 500 id (fun l => List.Perm.refl l)
    (36.116203, -119.681564) rfl (by decide)

/-- C8 counterexample: the claim's untagged portion is "documents with no
states field", but the code's untagged partition also admits a document
whose `states` key is present with an empty list — such a document is
returned even though it does have a `states` field. -/
theorem claim_C8_counterexample :
    get_articles_by_location [exTaggedEmpty] "CA" 500 id = [exTaggedEmpty] ∧
    exTaggedEmpty.states ≠ none ∧
    locMatches [exTaggedEmpty] "CA" 500 = [] ∧
    lookupState "CA" = some (36.116203, -119.681564) := by
  refine ⟨by decide, by decide, by decide, rfl⟩
